import Mathlib

/-
  Verification of the VOLTTRON authorization service (volttron-lib-auth).

  The orchestrator `VolttronAuthService` is embedded from
  src/volttron/services/auth/auth_service.py.  The Policy Store and
  Authorization Manager it delegates to live outside this repository
  (volttron.types.auth); those parts are modelled from the spec and are
  marked as such in their doc comments.
-/

namespace VolttronAuth

/-- Reserved platform identities, imported by the source from
`volttron.client.known_identities` (external constants). -/
def CONFIGURATION_STORE : String := "config.store"

/-- Reserved identity of the auth service itself. -/
def AUTH : String := "platform.auth"

/-- Reserved control identity. -/
def CONTROL : String := "platform.control"

/-- Reserved control-connection identity. -/
def CONTROL_CONNECTION : String := "control.connection"

/-- Reserved platform identity. -/
def PLATFORM : String := "platform"

/-- Reserved platform-health identity. -/
def PLATFORM_HEALTH : String := "platform.health"

/-- The fixed list of platform-reserved identities bootstrapped by
`VolttronAuthService.__init__` (auth_service.py line 112). -/
def volttron_services : List String :=
  [CONFIGURATION_STORE, AUTH, CONTROL_CONNECTION, CONTROL, PLATFORM, PLATFORM_HEALTH]

/-- Embeds `isregex` (auth_service.py lines 82-84):
`len(obj) > 1 and obj[0] == obj[-1] == "/"` (a Python chained comparison). -/
def isregex (s : String) : Bool :=
  decide (1 < s.length) && (s.front == s.back && s.back == '/')

/-- Single-character regex match: a dot matches any character, anything else
matches itself (the fragment of regular-expression matching used here). -/
def charMatch (p c : Char) : Bool := p == '.' || p == c

/-- Full-string regular-expression matching for the fragment with literal
characters, a dot wildcard and a postfix star.  Modelled from the spec:
the enclosed text of a regex-form pattern "is compiled as a regular
expression and matched in full against the candidate, not substring
search" (spec 4.2).  Only the pattern "/.*/" occurs in this repository. -/
def reMatch : List Char → List Char → Bool
  | [], s => s.isEmpty
  | _ :: '*' :: p, [] => reMatch p []
  | p₀ :: '*' :: p, c :: s =>
      reMatch p (c :: s) || (charMatch p₀ c && reMatch (p₀ :: '*' :: p) s)
  | _ :: _, [] => false
  | p₀ :: p, c :: s => charMatch p₀ c && reMatch p s
  termination_by p s => (p.length, s.length)

/-- Modelled from the spec: a pattern is classified by `isregex`; a regex
form strips the delimiting slashes and full-matches the enclosed regular
expression, a literal form is compared by exact string equality (spec 4.2). -/
def matchPattern (pattern candidate : String) : Bool :=
  if isregex pattern then
    reMatch (pattern.data.drop 1).dropLast candidate.data
  else
    pattern == candidate

/-- Identities are strings naming one agent. -/
abbrev Identity := String

/-- An argument-name to required-value mapping, as an association list. -/
abbrev ParamRestrictions := List (String × String)

/-- Modelled from the spec: RPCCapability is a resource pattern over method
names plus an optional mapping of argument-name to required value (spec 3). -/
structure RPCCapability where
  resource : String
  param_restrictions : ParamRestrictions
deriving DecidableEq

/-- Pub/sub access modes (spec 3): publish, subscribe, or both. -/
inductive PubsubAccess where
  | publish
  | subscribe
  | pubsub
deriving DecidableEq

/-- Modelled from the spec: PubsubCapability is a topic pattern plus an
access mode (spec 3). -/
structure PubsubCapability where
  topic_pattern : String
  topic_access : PubsubAccess
deriving DecidableEq

/-- Modelled from the spec: an AgentRoleAssignment references a Role by name
plus assignment-local param_restrictions (spec 3); named `AgentRole` as in
the source (`authz.AgentRole`). -/
structure AgentRole where
  role_name : String
  param_restrictions : ParamRestrictions
deriving DecidableEq

/-- Modelled from the spec: a Role is a reusable bundle of RPC and pub/sub
capabilities (spec 3). -/
structure Role where
  rpc_capabilities : List RPCCapability
  pubsub_capabilities : List PubsubCapability
deriving DecidableEq

/-- Modelled from the spec: an AgentGroup is a set of member identities with
role assignments and direct capabilities applied uniformly (spec 3, 4.1). -/
structure AgentGroup where
  identities : List Identity
  agent_roles : List AgentRole
  rpc_capabilities : List RPCCapability
  pubsub_capabilities : List PubsubCapability
deriving DecidableEq

/-- Modelled from the spec: the per-identity AgentAuthorization record —
protected RPC method names, role assignments, direct capabilities, and a
free-text comment (spec 3). -/
structure AgentAuthorization where
  protected_rpcs : List String
  agent_roles : List AgentRole
  rpc_capabilities : List RPCCapability
  pubsub_capabilities : List PubsubCapability
  comments : String
deriving DecidableEq

/-- The empty per-identity authorization record. -/
def emptyAuthz : AgentAuthorization := ⟨[], [], [], [], ""⟩

/-- Modelled from the spec: the Policy Store owns all Roles, AgentGroups and
AgentAuthorizations keyed by name or identity (spec 3). -/
structure PolicyStore where
  roles : List (String × Role)
  agent_groups : List (String × AgentGroup)
  agent_authz : List (Identity × AgentAuthorization)
deriving DecidableEq

/-- The empty Policy Store. -/
def emptyStore : PolicyStore := ⟨[], [], []⟩

/-- Association-list lookup by string key. -/
def lookupA {α : Type} (k : String) : List (String × α) → Option α
  | [] => none
  | (k₀, v) :: rest => if k₀ = k then some v else lookupA k rest

/-- Association-list insert-or-replace by string key. -/
def insertA {α : Type} (k : String) (v : α) : List (String × α) → List (String × α)
  | [] => [(k, v)]
  | (k₀, v₀) :: rest => if k₀ = k then (k, v) :: rest else (k₀, v₀) :: insertA k v rest

/-- Association-list removal of one keyed entry. -/
def removeA {α : Type} (k : String) : List (String × α) → List (String × α)
  | [] => []
  | (k₀, v₀) :: rest => if k₀ = k then rest else (k₀, v₀) :: removeA k rest

/-- Union of two lists viewed as sets: keeps the existing elements and
appends the new ones not already present (monotonic union merge, spec 3). -/
def setUnion {α : Type} [DecidableEq α] (xs ys : List α) : List α :=
  xs ++ ys.filter (fun y => !(decide (y ∈ xs)))

/-- Modelled from the spec: `create_or_merge_role` creates the role if
absent, otherwise unions the given capability sets into the existing role;
returns success unconditionally once applied (spec 4.1). -/
def PolicyStore.create_or_merge_role (ps : PolicyStore) (name : String)
    (rpc_capabilities : List RPCCapability) (pubsub_capabilities : List PubsubCapability) :
    PolicyStore × Bool :=
  let old : Role := (lookupA name ps.roles).getD ⟨[], []⟩
  let merged : Role :=
    ⟨setUnion old.rpc_capabilities rpc_capabilities,
     setUnion old.pubsub_capabilities pubsub_capabilities⟩
  (⟨insertA name merged ps.roles, ps.agent_groups, ps.agent_authz⟩, true)

/-- Modelled from the spec: `create_or_merge_agent_authz` unions
protected_rpcs, role assignments and direct capabilities, and overwrites the
comment (spec 4.1); like every `create_or_merge_*` mutation it returns a
success boolean for the create-if-absent path rather than raising, and
success is unconditional once the merge is applied (spec 4.1, 7).  Absent
optional arguments (Python `None`) merge nothing. -/
def PolicyStore.create_or_merge_agent_authz (ps : PolicyStore) (identity : Identity)
    (protected_rpcs : Option (List String)) (agent_roles : Option (List AgentRole))
    (rpc_capabilities : Option (List RPCCapability))
    (pubsub_capabilities : Option (List PubsubCapability))
    (comments : Option String) : PolicyStore × Bool :=
  let old : AgentAuthorization := (lookupA identity ps.agent_authz).getD emptyAuthz
  let merged : AgentAuthorization :=
    ⟨setUnion old.protected_rpcs (protected_rpcs.getD []),
     setUnion old.agent_roles (agent_roles.getD []),
     setUnion old.rpc_capabilities (rpc_capabilities.getD []),
     setUnion old.pubsub_capabilities (pubsub_capabilities.getD []),
     comments.getD old.comments⟩
  (⟨ps.roles, ps.agent_groups, insertA identity merged ps.agent_authz⟩, true)

/-- Modelled from the spec: `create_or_merge_agent_group` unions membership
and attached role assignments and direct capabilities (spec 4.1). -/
def PolicyStore.create_or_merge_agent_group (ps : PolicyStore) (name : String)
    (identities : Option (List Identity)) (agent_roles : Option (List AgentRole))
    (rpc_capabilities : Option (List RPCCapability))
    (pubsub_capabilities : Option (List PubsubCapability)) : PolicyStore × Bool :=
  let old : AgentGroup := (lookupA name ps.agent_groups).getD ⟨[], [], [], []⟩
  let merged : AgentGroup :=
    ⟨setUnion old.identities (identities.getD []),
     setUnion old.agent_roles (agent_roles.getD []),
     setUnion old.rpc_capabilities (rpc_capabilities.getD []),
     setUnion old.pubsub_capabilities (pubsub_capabilities.getD [])⟩
  (⟨ps.roles, insertA name merged ps.agent_groups, ps.agent_authz⟩, true)

/-- Modelled from the spec: `remove_agent_authorization` deletes the named
per-identity record (spec 4.1). -/
def PolicyStore.remove_agent_authorization (ps : PolicyStore) (identity : Identity) :
    PolicyStore :=
  ⟨ps.roles, ps.agent_groups, removeA identity ps.agent_authz⟩

/-- Modelled from the spec: `get_protected_rpcs` returns the identity's
protected set, and the empty set if the identity has no record
(open-by-default, not an error) (spec 4.1). -/
def PolicyStore.get_protected_rpcs (ps : PolicyStore) (identity : Identity) : List String :=
  ((lookupA identity ps.agent_authz).getD emptyAuthz).protected_rpcs

/-- Merge assignment-local param_restrictions into a capability's own
restrictions (existing keys win). -/
def mergeRestrictions (base extra : ParamRestrictions) : ParamRestrictions :=
  base ++ extra.filter (fun kv => (lookupA kv.1 base).isNone)

/-- Apply assignment-local param_restrictions to one RPC capability. -/
def constrain (pr : ParamRestrictions) (cap : RPCCapability) : RPCCapability :=
  ⟨cap.resource, mergeRestrictions cap.param_restrictions pr⟩

/-- RPC capabilities contributed by one role assignment: the referenced
role's RPC capabilities with the assignment-local param_restrictions merged
in; a dangling role name contributes nothing. -/
def PolicyStore.roleRpcCaps (ps : PolicyStore) (ar : AgentRole) : List RPCCapability :=
  match lookupA ar.role_name ps.roles with
  | none => []
  | some r => r.rpc_capabilities.map (constrain ar.param_restrictions)

/-- Pub/sub capabilities contributed by one role assignment. -/
def PolicyStore.rolePubsubCaps (ps : PolicyStore) (ar : AgentRole) : List PubsubCapability :=
  match lookupA ar.role_name ps.roles with
  | none => []
  | some r => r.pubsub_capabilities

/-- The fully resolved effective capability set of one identity. -/
structure AgentCapabilities where
  rpc_capabilities : List RPCCapability
  pubsub_capabilities : List PubsubCapability
deriving DecidableEq

/-- Python truthiness of the resolved capability set: falsy iff empty. -/
def AgentCapabilities.isEmpty (c : AgentCapabilities) : Bool :=
  c.rpc_capabilities.isEmpty && c.pubsub_capabilities.isEmpty

/-- Modelled from the spec: effective capabilities for an identity are the
direct capabilities, union the capabilities of each assigned role with the
assignment-local param_restrictions merged in, union the capabilities
inherited through group membership and the group's role assignments
(spec 3, 4.1). -/
def PolicyStore.get_agent_capabilities (ps : PolicyStore) (identity : Identity) :
    AgentCapabilities :=
  let record : AgentAuthorization := (lookupA identity ps.agent_authz).getD emptyAuthz
  let groups := ps.agent_groups.filter (fun g => decide (identity ∈ g.2.identities))
  ⟨record.rpc_capabilities
     ++ record.agent_roles.flatMap ps.roleRpcCaps
     ++ groups.flatMap (fun g => g.2.rpc_capabilities ++ g.2.agent_roles.flatMap ps.roleRpcCaps),
   record.pubsub_capabilities
     ++ record.agent_roles.flatMap ps.rolePubsubCaps
     ++ groups.flatMap (fun g => g.2.pubsub_capabilities ++ g.2.agent_roles.flatMap ps.rolePubsubCaps)⟩

/-- Check one capability's param_restrictions against the actual call
arguments: every restricted key must be present with an equal value. -/
def paramsOk (restrictions : ParamRestrictions) (args : List (String × String)) : Bool :=
  restrictions.all (fun kv => lookupA kv.1 args == some kv.2)

/-- Modelled from the spec: `check_rpc_authorization` — if the method name
is not in the target's protected_rpcs set (or that set is empty) return true
immediately, the default-open short-circuit with no capability resolution;
otherwise resolve the identity's effective RPC capabilities and return true
iff some capability's resource pattern matches the method name and every
key in its param_restrictions is present in the call arguments with an
equal value (spec 4.1). -/
def PolicyStore.check_rpc_authorization (ps : PolicyStore) (identity : Identity)
    (method_name : String) (method_args : List (String × String)) : Bool :=
  if method_name ∈ ps.get_protected_rpcs identity then
    (ps.get_agent_capabilities identity).rpc_capabilities.any
      (fun cap => matchPattern cap.resource method_name && paramsOk cap.param_restrictions method_args)
  else
    true

/-- The orchestrator's state: the external credential store (identity to
stored secret), the Authorization Manager's Policy Store, and the peer
directory of currently connected identities. -/
structure ServiceState where
  creds : List (Identity × Nat)
  store : PolicyStore
  peers : List Identity
deriving DecidableEq

/-- RPC capabilities of the bootstrap role "default_rpc_capabilities" as
seeded by `VolttronAuthService.__init__` (auth_service.py lines 122-130). -/
def defaultRpcRoleCaps : List RPCCapability :=
  [⟨CONFIGURATION_STORE ++ ".initialize_configs", []⟩,
   ⟨CONFIGURATION_STORE ++ ".set_config", []⟩,
   ⟨CONFIGURATION_STORE ++ ".delete_store", []⟩,
   ⟨CONFIGURATION_STORE ++ ".delete_config", []⟩]

/-- RPC capabilities of the bootstrap role "sync_agent_config"
(auth_service.py lines 132-138). -/
def syncAgentConfigCaps : List RPCCapability :=
  [⟨"config.store.config_update", []⟩, ⟨"config.store.initial_update", []⟩]

/-- The protected_rpcs baseline seeded for the CONFIGURATION_STORE identity
(auth_service.py lines 147-151). -/
def configStoreProtected : List String :=
  ["set_config", "delete_config", "delete_store", "initialize_configs",
   "config_update", "initial_config"]

/-- The protected_rpcs baseline seeded for the AUTH identity: its own
policy-mutation methods (auth_service.py lines 153-160). -/
def authProtected : List String :=
  ["create_agent", "remove_agent", "create_or_merge_role",
   "create_or_merge_agent_group", "create_or_merge_agent_authz",
   "create_protected_topics", "remove_agents_from_group", "add_agents_to_group",
   "remove_protected_topics", "remove_agent_authorization",
   "remove_agent_group", "remove_role"]

/-- The per-identity seeding step of the bootstrap loop (auth_service.py
lines 145-163): a first `if` for CONFIGURATION_STORE, then an `if`/`else`
pair for AUTH versus everyone else — note the second branch is a separate
`if`, not an `elif`, so CONFIGURATION_STORE also takes the `else` branch. -/
def seedIdentityAuthz (ps : PolicyStore) (k : Identity) : PolicyStore :=
  let ps1 :=
    if k = CONFIGURATION_STORE then
      (ps.create_or_merge_agent_authz k (some configStoreProtected) none none none
        (some "Automatically added by init of auth service")).1
    else ps
  if k = AUTH then
    (ps1.create_or_merge_agent_authz k (some authProtected) none none none
      (some "Automatically added by init of auth service")).1
  else
    (ps1.create_or_merge_agent_authz k none none none none
      (some "Automatically added by init of auth service")).1

/-- The Policy Store produced by `VolttronAuthService.__init__` from a fresh
(empty) store when an Authorization Manager is configured (auth_service.py
lines 120-168): seed the three default roles, seed each reserved identity's
protected_rpcs baseline, then create the "admin_users" group holding all
reserved identities with the admin role. -/
def bootstrapStore : PolicyStore :=
  let ps1 := (emptyStore.create_or_merge_role "default_rpc_capabilities"
    defaultRpcRoleCaps []).1
  let ps2 := (ps1.create_or_merge_role "sync_agent_config" syncAgentConfigCaps []).1
  let ps3 := (ps2.create_or_merge_role "admin" [⟨"/.*/", []⟩]
    [⟨"/.*/", PubsubAccess.pubsub⟩]).1
  let ps4 := volttron_services.foldl seedIdentityAuthz ps3
  (ps4.create_or_merge_agent_group "admin_users" (some volttron_services)
    (some [⟨"admin", []⟩]) none none).1

/-- Credential ensuring shared by bootstrap and `create_agent`: retrieve the
identity's credentials and, only when that fails with IdentityNotFound,
create and store fresh ones (auth_service.py lines 114-118 and 193-198).
`fresh` stands for the secret the external credential creator would mint. -/
def ensure_credentials (st : ServiceState) (identity : Identity) (fresh : Nat) :
    ServiceState :=
  match lookupA identity st.creds with
  | some _ => st
  | none => ⟨insertA identity fresh st.creds, st.store, st.peers⟩

/-- The protected_rpcs set merged for a newly provisioned agent
(auth_service.py lines 206-210). -/
def defaultSelfProtected : List String :=
  ["config.update", "config.initial_update", "rpc.add_protected_rpcs",
   "rpc.remove_protected_rpcs"]

/-- Embeds `VolttronAuthService.create_agent` (auth_service.py lines
190-212): ensure credentials exist (create only if absent), then — only when
the identity's effective capabilities are empty — merge the default
authorization: the role "default_rpc_capabilities" scoped to the identity
itself via param_restrictions plus the minimal self-management
protected_rpcs set; always returns true. -/
def VolttronAuthService.create_agent (st : ServiceState) (identity : Identity)
    (fresh : Nat) : ServiceState × Bool :=
  let st1 := ensure_credentials st identity fresh
  if (st1.store.get_agent_capabilities identity).isEmpty then
    (⟨st1.creds,
      (st1.store.create_or_merge_agent_authz identity
        (some defaultSelfProtected)
        (some [⟨"default_rpc_capabilities", [("identity", identity)]⟩])
        none none (some "default authorization for new user")).1,
      st1.peers⟩, true)
  else
    (st1, true)

/-- Outcome of `remove_agent`: normal return, or the exception raised by the
external credential store propagating out (with the state at raise time). -/
inductive RemoveResult where
  | ok (st : ServiceState) (ret : Bool)
  | credFailure (st : ServiceState)
deriving DecidableEq

/-- Embeds `VolttronAuthService.remove_agent` (auth_service.py lines
218-222): remove the identity's credentials first, then remove its
authorization record, then return true.  The external credential store's
removal behaviour is a parameter: `none` models it raising. -/
def VolttronAuthService.remove_agent
    (removeCreds : Identity → List (Identity × Nat) → Option (List (Identity × Nat)))
    (st : ServiceState) (identity : Identity) : RemoveResult :=
  match removeCreds identity st.creds with
  | none => .credFailure st
  | some creds2 =>
      .ok ⟨creds2, st.store.remove_agent_authorization identity, st.peers⟩ true

/-- Behaviour of the external bounded remote call
`self.vip.rpc.call(identity, "rpc.add_protected_rpcs", ...).get(timeout=5)`
when it is attempted: normal return, Unreachable, or RemoteError (spec 6). -/
inductive PushOutcome where
  | success
  | unreachable
  | remoteError
deriving DecidableEq

/-- Outcome of the service-level `create_or_merge_agent_authz`: normal
return carrying the new state, the returned boolean and whether the remote
push was attempted, or an exception propagating to the caller. -/
inductive CallOutcome where
  | ok (st : ServiceState) (ret : Bool) (pushAttempted : Bool)
  | raised (st : ServiceState)
deriving DecidableEq

/-- Python truthiness of the `protected_rpcs` argument: falsy when `None`
and when an empty set. -/
def protRpcsTruthy (o : Option (List String)) : Bool :=
  match o with
  | none => false
  | some l => !l.isEmpty

/-- Embeds `VolttronAuthService.create_or_merge_agent_authz`
(auth_service.py lines 288-312): delegate the merge to the Authorization
Manager; then, if the returned result and the `protected_rpcs` argument are
both truthy and the identity is among the connected peers, attempt the
bounded remote push of the new protected_rpcs — on Unreachable log and
proceed, on RemoteError raise; finally return the manager's result. -/
def VolttronAuthService.create_or_merge_agent_authz (push : PushOutcome)
    (st : ServiceState) (identity : Identity)
    (protected_rpcs : Option (List String)) (roles : Option (List AgentRole))
    (rpc_capabilities : Option (List RPCCapability))
    (pubsub_capabilities : Option (List PubsubCapability))
    (comments : Option String) : CallOutcome :=
  let m := st.store.create_or_merge_agent_authz identity protected_rpcs roles
    rpc_capabilities pubsub_capabilities comments
  let st2 : ServiceState := ⟨st.creds, m.1, st.peers⟩
  if m.2 && protRpcsTruthy protected_rpcs then
    if identity ∈ st2.peers then
      match push with
      | .success => .ok st2 m.2 true
      | .unreachable => .ok st2 m.2 true
      | .remoteError => .raised st2
    else .ok st2 m.2 false
  else .ok st2 m.2 false

/-- Whether the run represented by an outcome attempted the remote push
(the raised case only arises from an attempted push). -/
def CallOutcome.attemptedPush : CallOutcome → Bool
  | .ok _ _ p => p
  | .raised _ => true

/-- The service state at the end of the run an outcome represents. -/
def CallOutcome.finalState : CallOutcome → ServiceState
  | .ok st _ _ => st
  | .raised st => st

/-- A concrete state used in witnesses: agent1 already has protected_rpcs
containing "m" and is connected to the bus. -/
def c2State : ServiceState :=
  ⟨[], ⟨[], [], [("agent1", ⟨["m"], [], [], [], ""⟩)]⟩, ["agent1"]⟩

/-- A concrete state used in witnesses: alice has credentials and an
authorization record. -/
def c5State : ServiceState :=
  ⟨[("alice", 7)], ⟨[], [], [("alice", ⟨["m"], [], [], [], ""⟩)]⟩, []⟩

/-- A concrete service state right after bootstrap, with no connected peer. -/
def bootState : ServiceState := ⟨[], bootstrapStore, []⟩

theorem lookupA_insertA_self {α : Type} (k : String) (v : α) (l : List (String × α)) :
    lookupA k (insertA k v l) = some v := by
  induction l with
  | nil => simp [insertA, lookupA]
  | cons p rest ih =>
      obtain ⟨k₀, v₀⟩ := p
      by_cases h : k₀ = k
      · simp [insertA, lookupA, h]
      · simp [insertA, lookupA, h, ih]

theorem mem_setUnion {α : Type} [DecidableEq α] (a : α) (xs ys : List α) :
    a ∈ setUnion xs ys ↔ a ∈ xs ∨ a ∈ ys := by
  simp only [setUnion, List.mem_append, List.mem_filter, Bool.not_eq_true',
    decide_eq_false_iff_not]
  by_cases h : a ∈ xs <;> simp [h]

theorem isEmpty_false_of_mem {α : Type} {a : α} {l : List α} (h : a ∈ l) :
    l.isEmpty = false := by
  cases l with
  | nil => cases h
  | cons x xs => rfl

theorem ensure_credentials_store (st : ServiceState) (identity : Identity) (fresh : Nat) :
    (ensure_credentials st identity fresh).store = st.store := by
  unfold ensure_credentials
  cases lookupA identity st.creds <;> rfl

theorem ensure_credentials_peers (st : ServiceState) (identity : Identity) (fresh : Nat) :
    (ensure_credentials st identity fresh).peers = st.peers := by
  unfold ensure_credentials
  cases lookupA identity st.creds <;> rfl

theorem lookupA_ensure_credentials (st : ServiceState) (identity : Identity) (fresh : Nat) :
    ∃ v, lookupA identity (ensure_credentials st identity fresh).creds = some v := by
  unfold ensure_credentials
  cases h : lookupA identity st.creds with
  | none => exact ⟨fresh, by simp [lookupA_insertA_self]⟩
  | some v => exact ⟨v, by simpa using h⟩

theorem reMatch_dotstar (l : List Char) : reMatch ['.', '*'] l = true := by
  induction l with
  | nil => simp [reMatch]
  | cons c cs ih => simp [reMatch, charMatch, ih]

theorem matchPattern_dotstar (s : String) : matchPattern "/.*/" s = true := by
  have h1 : isregex "/.*/" = true := by decide
  have h2 : ("/.*/".data.drop 1).dropLast = ['.', '*'] := by decide
  simp only [matchPattern, h1, if_true, h2]
  exact reMatch_dotstar s.data

theorem agentCaps_isEmpty_false_of_rpc_ne_nil (c : AgentCapabilities)
    (h : c.rpc_capabilities ≠ []) : c.isEmpty = false := by
  obtain ⟨l1, l2⟩ := c
  simp only [AgentCapabilities.isEmpty]
  cases l1 with
  | nil => simp at h
  | cons x xs => rfl

theorem rpc_caps_mem_of_role (ps : PolicyStore) (identity : Identity)
    (ar : AgentRole) (c : RPCCapability)
    (har : ar ∈ ((lookupA identity ps.agent_authz).getD emptyAuthz).agent_roles)
    (hc : c ∈ ps.roleRpcCaps ar) :
    c ∈ (ps.get_agent_capabilities identity).rpc_capabilities := by
  simp only [PolicyStore.get_agent_capabilities, List.mem_append]
  exact Or.inl (Or.inr (List.mem_flatMap.mpr ⟨ar, har, hc⟩))

theorem caps_nonempty_of_role_assignment (ps : PolicyStore) (identity : Identity)
    (ar : AgentRole) (r : Role)
    (har : ar ∈ ((lookupA identity ps.agent_authz).getD emptyAuthz).agent_roles)
    (hr : lookupA ar.role_name ps.roles = some r)
    (hrne : r.rpc_capabilities ≠ []) :
    (ps.get_agent_capabilities identity).isEmpty = false := by
  have hcaps : ps.roleRpcCaps ar ≠ [] := by
    unfold PolicyStore.roleRpcCaps
    rw [hr]
    simpa using hrne
  obtain ⟨c, hc⟩ := List.exists_mem_of_ne_nil _ hcaps
  exact agentCaps_isEmpty_false_of_rpc_ne_nil _
    (List.ne_nil_of_mem (rpc_caps_mem_of_role ps identity ar c har hc))

theorem caps_nonempty_after_default_merge (ps : PolicyStore) (identity : Identity)
    (r : Role) (hr : lookupA "default_rpc_capabilities" ps.roles = some r)
    (hrne : r.rpc_capabilities ≠ []) :
    (((ps.create_or_merge_agent_authz identity (some defaultSelfProtected)
        (some [⟨"default_rpc_capabilities", [("identity", identity)]⟩])
        none none (some "default authorization for new user")).1).get_agent_capabilities
        identity).isEmpty = false := by
  apply caps_nonempty_of_role_assignment _ identity
    ⟨"default_rpc_capabilities", [("identity", identity)]⟩ r
  · simp only [PolicyStore.create_or_merge_agent_authz, lookupA_insertA_self,
      Option.getD_some]
    rw [mem_setUnion]
    right
    simp
  · exact hr
  · exact hrne

theorem create_agent_noop (st : ServiceState) (identity : Identity) (fresh : Nat)
    (hcred : ∃ v, lookupA identity st.creds = some v)
    (hcaps : (st.store.get_agent_capabilities identity).isEmpty = false) :
    VolttronAuthService.create_agent st identity fresh = (st, true) := by
  obtain ⟨v, hv⟩ := hcred
  unfold VolttronAuthService.create_agent ensure_credentials
  simp [hv, hcaps]

theorem create_agent_creds_present (st : ServiceState) (identity : Identity) (fresh : Nat) :
    ∃ v, lookupA identity (VolttronAuthService.create_agent st identity fresh).1.creds
      = some v := by
  obtain ⟨v, hv⟩ := lookupA_ensure_credentials st identity fresh
  simp only [VolttronAuthService.create_agent]
  split
  · exact ⟨v, hv⟩
  · exact ⟨v, hv⟩

theorem create_agent_caps_nonempty (st : ServiceState) (identity : Identity) (fresh : Nat)
    (r : Role) (hr : lookupA "default_rpc_capabilities" st.store.roles = some r)
    (hrne : r.rpc_capabilities ≠ []) :
    ((VolttronAuthService.create_agent st identity fresh).1.store.get_agent_capabilities
      identity).isEmpty = false := by
  have hs := ensure_credentials_store st identity fresh
  simp only [VolttronAuthService.create_agent]
  split
  · show (((ensure_credentials st identity fresh).store.create_or_merge_agent_authz
        identity (some defaultSelfProtected)
        (some [⟨"default_rpc_capabilities", [("identity", identity)]⟩])
        none none (some "default authorization for new user")).1.get_agent_capabilities
        identity).isEmpty = false
    rw [hs]
    exact caps_nonempty_after_default_merge st.store identity r hr hrne
  · next h =>
      show (((ensure_credentials st identity fresh).store.get_agent_capabilities
          identity).isEmpty) = false
      simpa using h

/-- C1: for every identity that has no protected_rpcs entry (or whose
protected set is empty), `check_rpc_authorization` returns true for every
method name and every argument mapping — the default-open short-circuit,
which by construction of `check_rpc_authorization` never resolves any
capability. -/
theorem check_rpc_default_open (ps : PolicyStore) (identity method_name : String)
    (method_args : List (String × String))
    (h : lookupA identity ps.agent_authz = none ∨ ps.get_protected_rpcs identity = []) :
    ps.check_rpc_authorization identity method_name method_args = true := by
  have hprot : ps.get_protected_rpcs identity = [] := by
    rcases h with h | h
    · simp [PolicyStore.get_protected_rpcs, h, emptyAuthz]
    · exact h
  simp [PolicyStore.check_rpc_authorization, hprot]

/-- Witness for C1: a store with no record for alice. -/
theorem check_rpc_default_open_witness :
    PolicyStore.check_rpc_authorization emptyStore "alice" "platform.auth.create_agent" []
      = true :=
  check_rpc_default_open emptyStore "alice" "platform.auth.create_agent" [] (Or.inl rfl)

/-- C2 is false as stated: merging a `protected_rpcs` argument that is
already contained in agent1's existing protected set leaves the protected
set unchanged, yet the remote push is still attempted, because the source
gates the push on `result and protected_rpcs` (auth_service.py line 300),
not on the merge having changed anything. -/
theorem push_attempted_despite_unchanged_protected :
    (VolttronAuthService.create_or_merge_agent_authz .success c2State "agent1"
        (some ["m"]) none none none none).attemptedPush = true ∧
    (VolttronAuthService.create_or_merge_agent_authz .success c2State "agent1"
        (some ["m"]) none none none none).finalState.store.get_protected_rpcs "agent1"
      = c2State.store.get_protected_rpcs "agent1" := by
  constructor
  · decide
  · decide

/-- C2 (amended): `create_or_merge_agent_authz` attempts the bounded remote
push exactly when the manager's merge returned success (always, in the
spec's model), the `protected_rpcs` argument is non-None and non-empty, and
the identity is currently among the connected peers — regardless of whether
the merge changed the identity's protected_rpcs set. -/
theorem push_attempted_iff_truthy_arg_and_connected (push : PushOutcome)
    (st : ServiceState) (identity : Identity) (protected_rpcs : Option (List String))
    (roles : Option (List AgentRole)) (rpc_capabilities : Option (List RPCCapability))
    (pubsub_capabilities : Option (List PubsubCapability)) (comments : Option String) :
    (VolttronAuthService.create_or_merge_agent_authz push st identity protected_rpcs
        roles rpc_capabilities pubsub_capabilities comments).attemptedPush
      = (protRpcsTruthy protected_rpcs && decide (identity ∈ st.peers)) := by
  unfold VolttronAuthService.create_or_merge_agent_authz
  cases ht : protRpcsTruthy protected_rpcs
  · simp [PolicyStore.create_or_merge_agent_authz, ht, CallOutcome.attemptedPush]
  · by_cases hm : identity ∈ st.peers
    · cases push <;>
        simp [PolicyStore.create_or_merge_agent_authz, ht, hm, CallOutcome.attemptedPush]
    · simp [PolicyStore.create_or_merge_agent_authz, ht, hm, CallOutcome.attemptedPush]

/-- C3: when the target identity is connected and the remote push fails with
a RemoteError, the service-level `create_or_merge_agent_authz` does not
return success — the error propagates to the caller — while the underlying
merge into the Policy Store has already been applied (the raised state
carries the merged store). -/
theorem remote_error_surfaces_failure (st : ServiceState) (identity : Identity)
    (protected_rpcs : Option (List String)) (roles : Option (List AgentRole))
    (rpc_capabilities : Option (List RPCCapability))
    (pubsub_capabilities : Option (List PubsubCapability)) (comments : Option String)
    (hprot : protRpcsTruthy protected_rpcs = true) (hpeer : identity ∈ st.peers) :
    VolttronAuthService.create_or_merge_agent_authz .remoteError st identity
        protected_rpcs roles rpc_capabilities pubsub_capabilities comments
      = .raised ⟨st.creds,
          (st.store.create_or_merge_agent_authz identity protected_rpcs roles
            rpc_capabilities pubsub_capabilities comments).1, st.peers⟩ := by
  unfold VolttronAuthService.create_or_merge_agent_authz
  simp [PolicyStore.create_or_merge_agent_authz, hprot, hpeer]

/-- Witness for C3: agent1 is connected and the push errors remotely. -/
theorem remote_error_surfaces_failure_witness :
    VolttronAuthService.create_or_merge_agent_authz .remoteError c2State "agent1"
        (some ["m2"]) none none none none
      = .raised ⟨c2State.creds,
          (c2State.store.create_or_merge_agent_authz "agent1" (some ["m2"]) none none
            none none).1, c2State.peers⟩ :=
  remote_error_surfaces_failure c2State "agent1" (some ["m2"]) none none none none
    (by decide) (by decide)

/-- C4: when the target identity is not connected, or the push fails with
Unreachable, the service-level `create_or_merge_agent_authz` still returns
the success result of the merge (true) on the merged state and raises
nothing. -/
theorem propagation_failure_never_fails_call (push : PushOutcome) (st : ServiceState)
    (identity : Identity) (protected_rpcs : Option (List String))
    (roles : Option (List AgentRole)) (rpc_capabilities : Option (List RPCCapability))
    (pubsub_capabilities : Option (List PubsubCapability)) (comments : Option String)
    (h : identity ∉ st.peers ∨ push = PushOutcome.unreachable) :
    ∃ p : Bool,
      VolttronAuthService.create_or_merge_agent_authz push st identity protected_rpcs
          roles rpc_capabilities pubsub_capabilities comments
        = .ok ⟨st.creds,
            (st.store.create_or_merge_agent_authz identity protected_rpcs roles
              rpc_capabilities pubsub_capabilities comments).1, st.peers⟩ true p := by
  refine ⟨protRpcsTruthy protected_rpcs && decide (identity ∈ st.peers), ?_⟩
  unfold VolttronAuthService.create_or_merge_agent_authz
  cases ht : protRpcsTruthy protected_rpcs
  · simp [PolicyStore.create_or_merge_agent_authz, ht]
  · by_cases hm : identity ∈ st.peers
    · rcases h with h | h
      · exact absurd hm h
      · subst h
        simp [PolicyStore.create_or_merge_agent_authz, ht, hm]
    · simp [PolicyStore.create_or_merge_agent_authz, ht, hm]

/-- Witness for C4: ghost is not among the connected peers, yet the call
returns the merge's success. -/
theorem propagation_failure_never_fails_call_witness :
    ∃ p : Bool,
      VolttronAuthService.create_or_merge_agent_authz .success c2State "ghost"
          (some ["m"]) none none none none
        = .ok ⟨c2State.creds,
            (c2State.store.create_or_merge_agent_authz "ghost" (some ["m"]) none none
              none none).1, c2State.peers⟩ true p :=
  propagation_failure_never_fails_call .success c2State "ghost" (some ["m"]) none none
    none none (Or.inl (by decide))

/-- C5: `remove_agent` removes credentials before removing the
authorization record; when credential removal raises, the whole state — in
particular the Policy Store and its authorization record — is left exactly
as it was, and when it succeeds both removals are applied. -/
theorem remove_agent_cred_failure_keeps_authz
    (removeCreds : Identity → List (Identity × Nat) → Option (List (Identity × Nat)))
    (st : ServiceState) (identity : Identity) :
    (removeCreds identity st.creds = none →
      VolttronAuthService.remove_agent removeCreds st identity = .credFailure st) ∧
    (∀ creds2, removeCreds identity st.creds = some creds2 →
      VolttronAuthService.remove_agent removeCreds st identity
        = .ok ⟨creds2, st.store.remove_agent_authorization identity, st.peers⟩ true) := by
  constructor
  · intro h
    simp [VolttronAuthService.remove_agent, h]
  · intro creds2 h
    simp [VolttronAuthService.remove_agent, h]

/-- Witness for C5: a credential store that raises leaves alice's
authorization record in place. -/
theorem remove_agent_cred_failure_keeps_authz_witness :
    VolttronAuthService.remove_agent (fun _ _ => none) c5State "alice"
      = .credFailure c5State :=
  (remove_agent_cred_failure_keeps_authz (fun _ _ => none) c5State "alice").1 rfl

/-- C6: calling `create_agent` twice in succession is idempotent — both
calls return true, and the second call changes nothing: no new or replaced
credentials, and no authorization-side mutation, because the identity's
effective capabilities are non-empty after the first call (the default
role's capability set is non-empty). -/
theorem create_agent_idempotent (st : ServiceState) (identity : Identity) (f1 f2 : Nat)
    (hrole : ∃ r, lookupA "default_rpc_capabilities" st.store.roles = some r ∧
      r.rpc_capabilities ≠ []) :
    (VolttronAuthService.create_agent st identity f1).2 = true ∧
    (VolttronAuthService.create_agent
        (VolttronAuthService.create_agent st identity f1).1 identity f2).2 = true ∧
    (VolttronAuthService.create_agent
        (VolttronAuthService.create_agent st identity f1).1 identity f2).1
      = (VolttronAuthService.create_agent st identity f1).1 := by
  obtain ⟨r, hr, hrne⟩ := hrole
  have h2 : VolttronAuthService.create_agent
        (VolttronAuthService.create_agent st identity f1).1 identity f2
      = ((VolttronAuthService.create_agent st identity f1).1, true) :=
    create_agent_noop _ identity f2 (create_agent_creds_present st identity f1)
      (create_agent_caps_nonempty st identity f1 r hr hrne)
  have h1 : (VolttronAuthService.create_agent st identity f1).2 = true := by
    simp only [VolttronAuthService.create_agent]
    split <;> rfl
  exact ⟨h1, by rw [h2], by rw [h2]⟩

/-- Witness for C6: provisioning newagent twice on the bootstrapped state;
the second call is a no-op. -/
theorem create_agent_idempotent_witness :
    (VolttronAuthService.create_agent
        (VolttronAuthService.create_agent bootState "newagent" 1).1 "newagent" 2).1
      = (VolttronAuthService.create_agent bootState "newagent" 1).1 :=
  (create_agent_idempotent bootState "newagent" 1 2
    ⟨⟨defaultRpcRoleCaps, []⟩, by decide, by decide⟩).2.2

/-- C7: for an identity whose effective capability set is empty,
`create_agent` merges exactly the default authorization: the role
"default_rpc_capabilities" with param_restrictions binding "identity" to
the identity itself, together with the minimal self-management
protected_rpcs set, which are all present in the resulting record. -/
theorem create_agent_first_provisioning (st : ServiceState) (identity : Identity)
    (fresh : Nat)
    (h : (st.store.get_agent_capabilities identity).isEmpty = true) :
    (VolttronAuthService.create_agent st identity fresh).1.store
      = (st.store.create_or_merge_agent_authz identity
          (some ["config.update", "config.initial_update", "rpc.add_protected_rpcs",
                 "rpc.remove_protected_rpcs"])
          (some [⟨"default_rpc_capabilities", [("identity", identity)]⟩])
          none none (some "default authorization for new user")).1 ∧
    (∀ m ∈ ["config.update", "config.initial_update", "rpc.add_protected_rpcs",
            "rpc.remove_protected_rpcs"],
      m ∈ (VolttronAuthService.create_agent st identity fresh).1.store.get_protected_rpcs
        identity) ∧
    (⟨"default_rpc_capabilities", [("identity", identity)]⟩ : AgentRole)
      ∈ ((lookupA identity
          (VolttronAuthService.create_agent st identity fresh).1.store.agent_authz).getD
          emptyAuthz).agent_roles := by
  have hs := ensure_credentials_store st identity fresh
  have hmain : (VolttronAuthService.create_agent st identity fresh).1.store
      = (st.store.create_or_merge_agent_authz identity (some defaultSelfProtected)
          (some [⟨"default_rpc_capabilities", [("identity", identity)]⟩])
          none none (some "default authorization for new user")).1 := by
    simp only [VolttronAuthService.create_agent]
    rw [if_pos]
    · show ((ensure_credentials st identity fresh).store.create_or_merge_agent_authz
          identity (some defaultSelfProtected)
          (some [⟨"default_rpc_capabilities", [("identity", identity)]⟩])
          none none (some "default authorization for new user")).1
        = _
      rw [hs]
    · rw [hs]
      exact h
  refine ⟨hmain, ?_, ?_⟩
  · intro m hm
    rw [hmain]
    simp only [PolicyStore.create_or_merge_agent_authz, PolicyStore.get_protected_rpcs,
      lookupA_insertA_self, Option.getD_some]
    rw [mem_setUnion]
    right
    simpa [defaultSelfProtected] using hm
  · rw [hmain]
    simp only [PolicyStore.create_or_merge_agent_authz, lookupA_insertA_self,
      Option.getD_some]
    rw [mem_setUnion]
    right
    simp

/-- Witness for C7: provisioning alice on a fresh empty store. -/
theorem create_agent_first_provisioning_witness :
    (VolttronAuthService.create_agent ⟨[], emptyStore, []⟩ "alice" 5).1.store
      = (emptyStore.create_or_merge_agent_authz "alice"
          (some ["config.update", "config.initial_update", "rpc.add_protected_rpcs",
                 "rpc.remove_protected_rpcs"])
          (some [⟨"default_rpc_capabilities", [("identity", "alice")]⟩])
          none none (some "default authorization for new user")).1 :=
  (create_agent_first_provisioning ⟨[], emptyStore, []⟩ "alice" 5 (by decide)).1

/-- C8: after bootstrap with an Authorization Manager configured, the AUTH
identity's protected_rpcs set is non-empty and contains exactly its twelve
policy-mutation methods; CONFIGURATION_STORE receives its minimal
config-protection baseline and every other reserved identity an empty one. -/
theorem bootstrap_protected_rpcs_baselines :
    bootstrapStore.get_protected_rpcs AUTH
      = ["create_agent", "remove_agent", "create_or_merge_role",
         "create_or_merge_agent_group", "create_or_merge_agent_authz",
         "create_protected_topics", "remove_agents_from_group",
         "add_agents_to_group", "remove_protected_topics",
         "remove_agent_authorization", "remove_agent_group", "remove_role"] ∧
    bootstrapStore.get_protected_rpcs AUTH ≠ [] ∧
    bootstrapStore.get_protected_rpcs CONFIGURATION_STORE
      = ["set_config", "delete_config", "delete_store", "initialize_configs",
         "config_update", "initial_config"] ∧
    bootstrapStore.get_protected_rpcs CONTROL_CONNECTION = [] ∧
    bootstrapStore.get_protected_rpcs CONTROL = [] ∧
    bootstrapStore.get_protected_rpcs PLATFORM = [] ∧
    bootstrapStore.get_protected_rpcs PLATFORM_HEALTH = [] := by
  decide

/-- C9: bootstrap seeds exactly the three default roles with their exact
capability contents — the config-store bundle, the config-sync bundle, and
the admin role whose RPC pattern and pubsub pattern "/.*/" (access mode
pubsub) match every candidate string — and creates the "admin_users" group
whose members are all reserved identities and whose role assignments hold
the admin role. -/
theorem bootstrap_default_roles_and_admin_group :
    bootstrapStore.roles.map Prod.fst
      = ["default_rpc_capabilities", "sync_agent_config", "admin"] ∧
    lookupA "default_rpc_capabilities" bootstrapStore.roles
      = some ⟨[⟨"config.store.initialize_configs", []⟩, ⟨"config.store.set_config", []⟩,
               ⟨"config.store.delete_store", []⟩, ⟨"config.store.delete_config", []⟩],
              []⟩ ∧
    lookupA "sync_agent_config" bootstrapStore.roles
      = some ⟨[⟨"config.store.config_update", []⟩,
               ⟨"config.store.initial_update", []⟩], []⟩ ∧
    lookupA "admin" bootstrapStore.roles
      = some ⟨[⟨"/.*/", []⟩], [⟨"/.*/", PubsubAccess.pubsub⟩]⟩ ∧
    lookupA "admin_users" bootstrapStore.agent_groups
      = some ⟨volttron_services, [⟨"admin", []⟩], [], []⟩ ∧
    (∀ s : String, matchPattern "/.*/" s = true) := by
  refine ⟨by decide, by decide, by decide, by decide, by decide, matchPattern_dotstar⟩

/-- C10: `isregex` returns true exactly when the string has length greater
than one and both its first and last characters are a slash; in particular
the one-character string "/" and the empty string are classified literal. -/
theorem isregex_iff_slash_delimited :
    (∀ s : String, isregex s = true ↔ (1 < s.length ∧ s.front = '/' ∧ s.back = '/')) ∧
    isregex "/" = false ∧ isregex "" = false := by
  refine ⟨fun s => ?_, by decide, by decide⟩
  unfold isregex
  simp only [Bool.and_eq_true, decide_eq_true_eq, beq_iff_eq]
  constructor
  · rintro ⟨h1, h2, h3⟩
    exact ⟨h1, h2.trans h3, h3⟩
  · rintro ⟨h1, h2, h3⟩
    exact ⟨h1, h2.trans h3.symm, h3⟩

end VolttronAuth
